import Mathlib

/-!
# Verification of the balatrobot protocol/session layer

A shallow embedding of the Python sources of the `balatrobot` repository
(`src/balatrobot/client.py`, `base.py`, `enums.py`, `models.py`) together with
proofs about the embedded definitions.  Machine-level concerns (actual TCP
sockets, logging) are modelled by explicit state passing: the socket handle is
an abstract identifier, and the outcome of each OS interaction (socket
creation, TCP connect, receive) is an explicit parameter of the embedded
operation, so that every control path of the Python code is represented.
-/

set_option linter.unusedVariables false

namespace Balatrobot

/-! ## JSON values (results of Python `json.loads`) -/

/-- A parsed JSON value, as produced by Python's `json.loads`. -/
inductive JVal where
  | jNull : JVal
  | jBool : Bool → JVal
  | jInt : Int → JVal
  | jStr : String → JVal
  | jArr : List JVal → JVal
  | jObj : List (String × JVal) → JVal

/-! ## Enumerations (`src/balatrobot/enums.py`) -/

/-- The `State` enum: game state values (phases) of Balatro. -/
inductive State where
  | SELECTING_HAND | HAND_PLAYED | DRAW_TO_HAND | GAME_OVER | SHOP
  | PLAY_TAROT | BLIND_SELECT | ROUND_EVAL | TAROT_PACK | PLANET_PACK
  | MENU | TUTORIAL | SPLASH | SANDBOX | SPECTRAL_PACK | DEMO_CTA
  | STANDARD_PACK | BUFFOON_PACK | NEW_ROUND
deriving Repr, DecidableEq

/-- The integer value of each `State` member (`State.<M>.value` in Python). -/
def State.val : State → Int
  | .SELECTING_HAND => 1
  | .HAND_PLAYED => 2
  | .DRAW_TO_HAND => 3
  | .GAME_OVER => 4
  | .SHOP => 5
  | .PLAY_TAROT => 6
  | .BLIND_SELECT => 7
  | .ROUND_EVAL => 8
  | .TAROT_PACK => 9
  | .PLANET_PACK => 10
  | .MENU => 11
  | .TUTORIAL => 12
  | .SPLASH => 13
  | .SANDBOX => 14
  | .SPECTRAL_PACK => 15
  | .DEMO_CTA => 16
  | .STANDARD_PACK => 17
  | .BUFFOON_PACK => 18
  | .NEW_ROUND => 19

/-- Python `State(n)`: value-to-member lookup; `none` models the `ValueError`
raised on an integer that is not the value of any member. -/
def State.ofInt (n : Int) : Option State :=
  if n = 1 then some .SELECTING_HAND
  else if n = 2 then some .HAND_PLAYED
  else if n = 3 then some .DRAW_TO_HAND
  else if n = 4 then some .GAME_OVER
  else if n = 5 then some .SHOP
  else if n = 6 then some .PLAY_TAROT
  else if n = 7 then some .BLIND_SELECT
  else if n = 8 then some .ROUND_EVAL
  else if n = 9 then some .TAROT_PACK
  else if n = 10 then some .PLANET_PACK
  else if n = 11 then some .MENU
  else if n = 12 then some .TUTORIAL
  else if n = 13 then some .SPLASH
  else if n = 14 then some .SANDBOX
  else if n = 15 then some .SPECTRAL_PACK
  else if n = 16 then some .DEMO_CTA
  else if n = 17 then some .STANDARD_PACK
  else if n = 18 then some .BUFFOON_PACK
  else if n = 19 then some .NEW_ROUND
  else none

/-- The `Actions` enum: bot action verbs. -/
inductive Actions where
  | SELECT_BLIND | SKIP_BLIND | PLAY_HAND | DISCARD_HAND | END_SHOP
  | REROLL_SHOP | BUY_CARD | BUY_VOUCHER | BUY_BOOSTER | SELECT_BOOSTER_CARD
  | SKIP_BOOSTER_PACK | SELL_JOKER | USE_CONSUMABLE | SELL_CONSUMABLE
  | REARRANGE_JOKERS | REARRANGE_CONSUMABLES | REARRANGE_HAND | PASS
  | START_RUN | SEND_GAMESTATE
deriving Repr, DecidableEq

/-- The Python `.name` attribute of each `Actions` member. -/
def Actions.pyName : Actions → String
  | .SELECT_BLIND => "SELECT_BLIND"
  | .SKIP_BLIND => "SKIP_BLIND"
  | .PLAY_HAND => "PLAY_HAND"
  | .DISCARD_HAND => "DISCARD_HAND"
  | .END_SHOP => "END_SHOP"
  | .REROLL_SHOP => "REROLL_SHOP"
  | .BUY_CARD => "BUY_CARD"
  | .BUY_VOUCHER => "BUY_VOUCHER"
  | .BUY_BOOSTER => "BUY_BOOSTER"
  | .SELECT_BOOSTER_CARD => "SELECT_BOOSTER_CARD"
  | .SKIP_BOOSTER_PACK => "SKIP_BOOSTER_PACK"
  | .SELL_JOKER => "SELL_JOKER"
  | .USE_CONSUMABLE => "USE_CONSUMABLE"
  | .SELL_CONSUMABLE => "SELL_CONSUMABLE"
  | .REARRANGE_JOKERS => "REARRANGE_JOKERS"
  | .REARRANGE_CONSUMABLES => "REARRANGE_CONSUMABLES"
  | .REARRANGE_HAND => "REARRANGE_HAND"
  | .PASS => "PASS"
  | .START_RUN => "START_RUN"
  | .SEND_GAMESTATE => "SEND_GAMESTATE"

/-- The `ErrorCode` enum: the closed set of API error codes. -/
inductive ErrorCode where
  | INVALID_JSON | MISSING_NAME | MISSING_ARGUMENTS | UNKNOWN_FUNCTION
  | INVALID_ARGUMENTS
  | SOCKET_CREATE_FAILED | SOCKET_BIND_FAILED | CONNECTION_FAILED
  | INVALID_GAME_STATE | INVALID_PARAMETER | PARAMETER_OUT_OF_RANGE
  | MISSING_GAME_OBJECT
  | DECK_NOT_FOUND | INVALID_CARD_INDEX | NO_DISCARDS_LEFT | INVALID_ACTION
deriving Repr, DecidableEq

/-- The string value of each `ErrorCode` member (`ErrorCode.<M>.value`). -/
def ErrorCode.val : ErrorCode → String
  | .INVALID_JSON => "E001"
  | .MISSING_NAME => "E002"
  | .MISSING_ARGUMENTS => "E003"
  | .UNKNOWN_FUNCTION => "E004"
  | .INVALID_ARGUMENTS => "E005"
  | .SOCKET_CREATE_FAILED => "E006"
  | .SOCKET_BIND_FAILED => "E007"
  | .CONNECTION_FAILED => "E008"
  | .INVALID_GAME_STATE => "E009"
  | .INVALID_PARAMETER => "E010"
  | .PARAMETER_OUT_OF_RANGE => "E011"
  | .MISSING_GAME_OBJECT => "E012"
  | .DECK_NOT_FOUND => "E013"
  | .INVALID_CARD_INDEX => "E014"
  | .NO_DISCARDS_LEFT => "E015"
  | .INVALID_ACTION => "E016"

/-! ## Python runtime values and Python equality semantics -/

/-- A Python value as it occurs in the dispatcher's environment dictionaries:
`None`, `bool`, `int`, `str`, or a member of the `State` enum. -/
inductive PyVal where
  | pyNone : PyVal
  | pyBool : Bool → PyVal
  | pyInt : Int → PyVal
  | pyStr : String → PyVal
  | pyState : State → PyVal
deriving Repr, DecidableEq

/-- Python `==` on the values above.  `bool` is a subclass of `int`, so
`True == 1`; a plain `enum.Enum` member (such as `State.GAME_OVER`) compares
by identity and is therefore never equal to an `int` or `str`; values of
unrelated types compare unequal. -/
def pyEq : PyVal → PyVal → Bool
  | .pyNone, .pyNone => true
  | .pyBool a, .pyBool b => a == b
  | .pyBool a, .pyInt n => (if a then (1 : Int) else 0) == n
  | .pyInt n, .pyBool a => n == (if a then (1 : Int) else 0)
  | .pyInt a, .pyInt b => a == b
  | .pyStr a, .pyStr b => a == b
  | .pyState a, .pyState b => a == b
  | _, _ => false

/-- The Python `.name` attribute of each `State` member. -/
def State.pyName : State → String
  | .SELECTING_HAND => "SELECTING_HAND"
  | .HAND_PLAYED => "HAND_PLAYED"
  | .DRAW_TO_HAND => "DRAW_TO_HAND"
  | .GAME_OVER => "GAME_OVER"
  | .SHOP => "SHOP"
  | .PLAY_TAROT => "PLAY_TAROT"
  | .BLIND_SELECT => "BLIND_SELECT"
  | .ROUND_EVAL => "ROUND_EVAL"
  | .TAROT_PACK => "TAROT_PACK"
  | .PLANET_PACK => "PLANET_PACK"
  | .MENU => "MENU"
  | .TUTORIAL => "TUTORIAL"
  | .SPLASH => "SPLASH"
  | .SANDBOX => "SANDBOX"
  | .SPECTRAL_PACK => "SPECTRAL_PACK"
  | .DEMO_CTA => "DEMO_CTA"
  | .STANDARD_PACK => "STANDARD_PACK"
  | .BUFFOON_PACK => "BUFFOON_PACK"
  | .NEW_ROUND => "NEW_ROUND"

/-- Python `str(...)` of the values above (used by `_action_to_action_str`). -/
def pyStrOf : PyVal → String
  | .pyNone => "None"
  | .pyBool b => if b then "True" else "False"
  | .pyInt n => toString n
  | .pyStr s => s
  | .pyState s => "State." ++ s.pyName

/-- Python truthiness of an optional-list value (`if args:` in
`_action_to_action_str`): `None` and the empty list are falsy. -/
def pyTruthyOptList (args : Option (List PyVal)) : Bool :=
  match args with
  | none => false
  | some xs => !xs.isEmpty

/-! ## Exception hierarchy (`balatrobot.exceptions`)

`client.py` imports `BalatroError`, `ConnectionFailedError` and
`create_exception_from_error_response` from `balatrobot.exceptions`; that
module's source is not among the provided sources, so it is modelled from the
spec here. -/

/-- Modelled from the spec: the module `balatrobot.exceptions` (imported by
`client.py` and the tests but missing from the provided sources).  Spec §7:
a base `BalatroError` carries a human message, a stable `error_code` and an
optional context mapping; `ConnectionFailedError` is the distinct
connection-tier subclass (code E008); the peer's structured error replies are
translated one-to-one into typed exception subtypes carrying the same code,
message, originating phase and context (`create_exception_from_error_response`).
Constructors model the distinct runtime classes: a value built by
`balatroError` is an instance of the base class only, never of
`ConnectionFailedError`. -/
inductive BalatroExc where
  | balatroError (msg : String) (code : ErrorCode) (ctx : List (String × PyVal))
  | connectionFailedError (msg : String) (code : ErrorCode)
      (ctx : List (String × PyVal))
  | typedApiError (msg : String) (codeStr : String) (stateCode : Int)
      (ctx : Option JVal)

/-- Python `isinstance(e, ConnectionFailedError)`. -/
def BalatroExc.isConnectionFailed : BalatroExc → Bool
  | .connectionFailedError _ _ _ => true
  | _ => false

/-- The `.error_code.value` string attribute of an exception. -/
def BalatroExc.codeVal : BalatroExc → String
  | .balatroError _ c _ => c.val
  | .connectionFailedError _ c _ => c.val
  | .typedApiError _ c _ _ => c

/-- The `.context` attribute of an exception raised by `client.py`
(the raw-reply constructor keeps its context as parsed JSON instead). -/
def BalatroExc.ctxList : BalatroExc → List (String × PyVal)
  | .balatroError _ _ ctx => ctx
  | .connectionFailedError _ _ ctx => ctx
  | .typedApiError _ _ _ _ => []

/-- The `.message` (`str(e)`) of an exception. -/
def BalatroExc.msgStr : BalatroExc → String
  | .balatroError m _ _ => m
  | .connectionFailedError m _ _ => m
  | .typedApiError m _ _ _ => m

/-! ## Connection state machine (`BalatroClient` in `client.py`) -/

/-- The mutable state of a `BalatroClient`: configuration attributes, the
(nullable) socket handle `_socket`, and the `_connected` flag.  A socket
handle is modelled as an abstract identifier (`Nat`); `openCount` is a ghost
field counting how many sockets the client has ever created, used to state
"does not open a second socket". -/
structure ClientState where
  host : String
  port : Int
  timeoutSecs : Nat
  bufferSize : Nat
  sock : Option Nat
  connected : Bool
  openCount : Nat
deriving Repr, DecidableEq

/-- Constructor `BalatroClient.__init__(port)`: class attributes plus a null socket and
a false connected flag. -/
def clientInit (port : Int) : ClientState :=
  { host := "127.0.0.1", port := port, timeoutSecs := 30, bufferSize := 65536
    sock := none, connected := false, openCount := 0 }

/-- Where (if anywhere) the OS-level part of `connect()` raises.  The Python
body first assigns `self._socket = socket.socket(...)` and only then calls
`settimeout`, `setsockopt` and `connect` on it, all inside one `try`. -/
inductive ConnectOutcome where
  | createRaises (emsg : String)
  | setupOrConnectRaises (emsg : String)
  | succeeds
deriving Repr, DecidableEq

/-- Method `BalatroClient.connect()`.  Returns the new client state and the raised
exception, if any.  If already connected it returns immediately.  Otherwise a
fresh socket is assigned to `_socket`; if any subsequent socket call raises,
the `except` clause re-raises `ConnectionFailedError` (E008) with host, port
and the original error as context — note that `_socket` keeps the fresh
socket object in that case.  If `socket.socket(...)` itself raises, the
assignment never happens and `_socket` keeps its previous value. -/
def connect (st : ClientState) (o : ConnectOutcome) :
    ClientState × Option BalatroExc :=
  if st.connected then (st, none)
  else
    match o with
    | .createRaises e =>
        (st,
         some (.connectionFailedError
           ("Failed to connect to " ++ st.host ++ ":" ++ toString st.port)
           .CONNECTION_FAILED
           [("host", .pyStr st.host), ("port", .pyInt st.port),
            ("error", .pyStr e)]))
    | .setupOrConnectRaises e =>
        ({ st with sock := some st.openCount, openCount := st.openCount + 1 },
         some (.connectionFailedError
           ("Failed to connect to " ++ st.host ++ ":" ++ toString st.port)
           .CONNECTION_FAILED
           [("host", .pyStr st.host), ("port", .pyInt st.port),
            ("error", .pyStr e)]))
    | .succeeds =>
        ({ st with sock := some st.openCount, connected := true,
                   openCount := st.openCount + 1 },
         none)

/-- Method `BalatroClient.disconnect()`: close and null the socket if present, then
clear the connected flag.  The body contains no `raise`. -/
def disconnect (st : ClientState) : ClientState :=
  if st.sock.isSome then { st with sock := none, connected := false }
  else { st with connected := false }

/-- The spec's two observable connection states: fully connected
(socket non-null and flag true) or fully disconnected (socket null and flag
false). -/
def twoStateInv (st : ClientState) : Bool :=
  (st.sock.isSome && st.connected) || (st.sock.isNone && !st.connected)

/-! ## `send_message` (`client.py`) -/

/-- Dictionary lookup on a parsed JSON object (first binding wins; Python
dicts produced by `json.loads` have unique keys). -/
def JVal.getKey (fields : List (String × JVal)) (k : String) : Option JVal :=
  match fields with
  | [] => none
  | (k1, v) :: rest => if k1 = k then some v else JVal.getKey rest k

/-- Python substring test `pat in s`, over character lists. -/
def containsSeq (pat : List Char) : List Char → Bool
  | [] => pat.isEmpty
  | c :: rest => pat.isPrefixOf (c :: rest) || containsSeq pat rest

/-- Python `"error" in response_data` for an arbitrary `json.loads` result:
key membership for a dict, element equality for a list, substring test for a
string; for the remaining scalar types the `in` operator raises `TypeError`
(modelled as `none`). -/
def pyContainsErrorKey : JVal → Option Bool
  | .jObj fields => some (fields.any (fun kv => kv.1 == "error"))
  | .jArr xs =>
      some (xs.any (fun x => match x with
        | .jStr s => s == "error"
        | _ => false))
  | .jStr s => some (containsSeq "error".data s.data)
  | _ => none

/-- Modelled from the spec: `create_exception_from_error_response` in the
missing `balatrobot.exceptions` module.  Spec §7: the structured error reply
is translated into the typed exception subtype indicated by `error_code`,
carrying the same code, message, originating phase and context; code E008
denotes the connection-tier subclass. -/
def create_exception_from_error_response (v : JVal) : BalatroExc :=
  let fields := match v with | .jObj fs => fs | _ => []
  let msg := match JVal.getKey fields "error" with
    | some (.jStr s) => s
    | _ => ""
  let codeStr := match JVal.getKey fields "error_code" with
    | some (.jStr s) => s
    | _ => ""
  let stateCode := match JVal.getKey fields "state" with
    | some (.jInt n) => n
    | _ => 0
  if codeStr = "E008" then
    .connectionFailedError msg .CONNECTION_FAILED []
  else
    .typedApiError msg codeStr stateCode (JVal.getKey fields "context")

/-- What the transport does during the `try` block of `send_message`.  The
received bytes pass through two stages at `client.py:134`,
`json.loads(data.decode().strip())`: `data.decode()` raises
`UnicodeDecodeError` when the bytes are not valid UTF-8, and only the
decoded text reaches `json.loads`, which raises `JSONDecodeError` when the
text is not valid JSON.  The outcomes are: `socket.send`/`socket.recv`
raises `socket.error`; the reply bytes are not valid UTF-8; the decoded
text is not valid JSON; or the text parses to a value. -/
inductive WireOutcome where
  | sendRecvRaises (emsg : String)
  | replyUndecodable (emsg : String)
  | replyNotJson (emsg : String)
  | reply (v : JVal)

/-- Result of a `send_message` call: the returned response, a raised
`BalatroError`-family exception, or an uncaught non-Balatro Python error.
The latter arises on two paths: `UnicodeDecodeError` from `data.decode()`
(a `ValueError` sibling of `JSONDecodeError`, caught by neither
`except socket.error` nor `except json.JSONDecodeError`, so it propagates
to the caller), and the `"error" in response_data` `TypeError` corner for
scalar replies. -/
inductive CallResult where
  | ok (v : JVal)
  | raised (e : BalatroExc)
  | pyUnicodeDecodeError (emsg : String)
  | pyTypeError (emsg : String)

/-- Classifiers on `CallResult` used in theorem statements. -/
def CallResult.raisedExc : CallResult → Option BalatroExc
  | .raised e => some e
  | _ => none

def CallResult.isOk : CallResult → Bool
  | .ok _ => true
  | _ => false

/-- Method `BalatroClient.send_message(name, arguments)`.  The guard raises
`ConnectionFailedError` (E008) with context `connected`/`socket` when the
client is not connected; inside the `try`, a `socket.error` is re-raised as
`ConnectionFailedError` (E008) with the original error as context, a
`json.JSONDecodeError` as `BalatroError` (E001) with the original error as
context, while a `UnicodeDecodeError` from `data.decode()` matches neither
`except` clause and propagates to the caller uncaught; a parsed reply
containing an `"error"` key is turned into the typed exception for its
`error_code`; otherwise the parsed reply is returned.  Serialization of the
request (`request.model_dump_json() + "\n"`) affects only the bytes sent,
which the abstract `WireOutcome` already accounts for. -/
def send_message (st : ClientState) (name : String)
    (arguments : List (String × JVal)) (w : WireOutcome) : CallResult :=
  if !st.connected || st.sock.isNone then
    .raised (.connectionFailedError "Not connected to the game API"
      .CONNECTION_FAILED
      [("connected", .pyBool st.connected),
       ("socket", .pyBool st.sock.isSome)])
  else
    match w with
    | .sendRecvRaises e =>
        .raised (.connectionFailedError
          ("Socket error during communication: " ++ e)
          .CONNECTION_FAILED [("error", .pyStr e)])
    | .replyUndecodable e => .pyUnicodeDecodeError e
    | .replyNotJson e =>
        .raised (.balatroError ("Invalid JSON response from game: " ++ e)
          .INVALID_JSON [("error", .pyStr e)])
    | .reply v =>
        match pyContainsErrorKey v with
        | none => .pyTypeError "argument of type is not iterable"
        | some true => .raised (create_exception_from_error_response v)
        | some false => .ok v

/-! ## Windows-to-Linux save-path translation (`client.py`) -/

/-- Python `s.startswith(pre)`: per-character prefix test. -/
def pyStartsWith (s pre : String) : Bool :=
  pre.data.isPrefixOf s.data

/-- Python slicing `s[n:]`: drop the first `n` characters. -/
def pyDrop (s : String) (n : Nat) : String :=
  String.mk (s.data.drop n)

/-- Python `s.replace("\\", "/")`: the pattern is a single character, so the
replacement is a per-character map. -/
def backslashToSlash (s : String) : String :=
  String.mk (s.data.map (fun c => if c = '\\' then '/' else c))

/-- The expanded Steam Proton prefix
`Path("~/.steam/steam/steamapps/compatdata/2379780/pfx/drive_c").expanduser()`:
`expanduser` replaces the leading `~` with the user's home directory.  It
reads only the environment, not the filesystem; `home` is passed explicitly
here. -/
def protonDriveC (home : String) : String :=
  home ++ "/.steam/steam/steamapps/compatdata/2379780/pfx/drive_c"

/-- Method `BalatroClient._convert_windows_path_to_linux`.  `isLinux` stands for
`platform.system() == "Linux"`; `home` for the user's home directory.  A pure
string transform: on Linux, a path starting with `C:` has its prefix
(`C:/`, `C:\` with backslash normalisation, or bare `C:`) replaced by the
Proton `drive_c` directory; any other input is returned unchanged. -/
def convert_windows_path_to_linux (isLinux : Bool) (home : String)
    (windows_path : String) : String :=
  if isLinux && pyStartsWith windows_path "C:" then
    if pyStartsWith windows_path "C:/" then
      protonDriveC home ++ "/" ++ pyDrop windows_path 3
    else if pyStartsWith windows_path "C:\\" then
      protonDriveC home ++ "/" ++ backslashToSlash (pyDrop windows_path 3)
    else
      protonDriveC home ++ "/" ++ pyDrop windows_path 2
  else windows_path

/-! ## Action encoding (`base.py`) -/

/-- The `ActionSchema` TypedDict of `base.py`: a TypedDict with an `Actions` verb and an
optional ordered argument list. -/
structure ActionSchema where
  action : Actions
  args : Option (List PyVal)
deriving Repr, DecidableEq

/-- Method `Bot._action_to_action_str`: the action-verb name, then, if `args` is
truthy (non-`None` and non-empty), the arguments rendered with `str` and
joined by `","`; the fields are joined by `"|"`.  Python's `sep.join(parts)`
is `List.intercalate` over the characters.  (The dynamic
`isinstance(action_enum, Actions)` test is always true here because the
schema's `action` field is an `Actions` member, and `args` is always a list
when present, so the `str(args)` fallback branch is dead.) -/
def action_to_action_str (action : ActionSchema) : String :=
  let result0 : List String := [action.action.pyName]
  let result : List String :=
    if pyTruthyOptList action.args then
      result0 ++ [String.mk (List.intercalate [',']
        (((action.args.getD []).map pyStrOf).map String.data))]
    else result0
  String.mk (List.intercalate ['|'] (result.map String.data))

/-- Decoding of the wire string, as the round-trip claim specifies it:
split on `'|'` into fields; the verb is the first field and the args are the
second field split on `','`. -/
def decode_action_str (s : String) : String × List String :=
  let fields := (s.data.splitOn '|').map String.mk
  (fields.headD "",
   (((fields.drop 1).headD "").data.splitOn ',').map String.mk)

/-! ## Decision dispatcher (`Bot` in `base.py`) -/

/-- The part of the decision environment dictionary (`env`, from
`json.loads`) that `chooseaction` reads: `env["state"]` and
`env["waitingFor"]`. -/
structure Env where
  state : PyVal
  waitingFor : String

/-- The run configuration a `Bot` instance carries: `self.deck.value`,
`self.stake.value`, `self.seed`, `self.challenge`. -/
structure BotConfig where
  deck : String
  stake : Int
  seed : String
  challenge : Option String

/-- The nine abstract decision callbacks a concrete strategy implements. -/
structure BotCallbacks where
  skip_or_select_blind : Env → ActionSchema
  select_cards_from_hand : Env → ActionSchema
  select_shop_action : Env → ActionSchema
  select_booster_action : Env → ActionSchema
  sell_jokers : Env → ActionSchema
  rearrange_jokers : Env → ActionSchema
  use_or_sell_consumables : Env → ActionSchema
  rearrange_consumables : Env → ActionSchema
  rearrange_hand : Env → ActionSchema

/-- Python `State(x)`: value lookup for an `int`, identity for a member;
`none` models the `ValueError` raised for anything else. -/
def pyStateCtor : PyVal → Option State
  | .pyInt n => State.ofInt n
  | .pyState s => some s
  | _ => none

/-- Method `Bot.chooseaction(env)`.  Returns the updated `self.running` flag and
either the chosen `ActionSchema` or the message of the raised `ValueError`
(for an unhandled `waitingFor`).  The `State(env["state"]).name` lookup is
wrapped in `try/except ValueError` and feeds only a debug log line, so an
unknown state code does not abort the call; the running flag is cleared when
`env["state"] == State.GAME_OVER` under Python `==` semantics; then the
dispatch table on `env["waitingFor"]` is consulted.  `freshSeed` stands for
the `self.random_seed()` draw used when `self.seed` is falsy (empty). -/
def chooseaction (cbs : BotCallbacks) (cfg : BotConfig) (freshSeed : String)
    (running : Bool) (env : Env) : Bool × Except String ActionSchema :=
  let state_name : String :=
    match pyStateCtor env.state with
    | some s => s.pyName
    | none => "UNKNOWN(" ++ pyStrOf env.state ++ ")"
  let running2 : Bool :=
    if pyEq env.state (.pyState .GAME_OVER) then false else running
  let act : Except String ActionSchema :=
    match env.waitingFor with
    | "start_run" =>
        let seed := if cfg.seed = "" then freshSeed else cfg.seed
        .ok { action := .START_RUN,
              args := some [.pyInt cfg.stake, .pyStr cfg.deck, .pyStr seed,
                (match cfg.challenge with
                 | some c => .pyStr c
                 | none => .pyNone)] }
    | "skip_or_select_blind" => .ok (cbs.skip_or_select_blind env)
    | "select_cards_from_hand" => .ok (cbs.select_cards_from_hand env)
    | "select_shop_action" => .ok (cbs.select_shop_action env)
    | "select_booster_action" => .ok (cbs.select_booster_action env)
    | "sell_jokers" => .ok (cbs.sell_jokers env)
    | "rearrange_jokers" => .ok (cbs.rearrange_jokers env)
    | "use_or_sell_consumables" => .ok (cbs.use_or_sell_consumables env)
    | "rearrange_consumables" => .ok (cbs.rearrange_consumables env)
    | "rearrange_hand" => .ok (cbs.rearrange_hand env)
    | other => .error ("Unhandled waitingFor state: " ++ other)
  (running2, act)

/-! ## Typed response models (`models.py`) -/

/-- The `Card` model: `config: dict[str, Any]`, `label: str`. -/
structure Card where
  config : List (String × JVal)
  label : String

/-- The `Game` model: round/economy fields, all optional with defaults. -/
structure Game where
  blind_on_deck : Option String
  hands_played : Int
  current_round : List (String × JVal)
  skips : Int
  discount_percent : Int
  interest_cap : Int
  chips : Int
  inflation : Int
  round : Int
  dollars : Int
  max_jokers : Int
  bankrupt_at : Int

/-- The `GameState` model: `state: int` (required), `game: Game | None = None`,
`hand: list[Card] = []`, `jokers: list[dict] = []`. -/
structure GameState where
  state : Int
  game : Option Game
  hand : List Card
  jokers : List (List (String × JVal))

/-- The `state_enum` property of `GameState`: `State(self.state)`; `none`
models the `ValueError` raised on a code outside the enumeration. -/
def GameState.state_enum (g : GameState) : Option State :=
  State.ofInt g.state

/-- Validation of an `int`-typed pydantic field with a default: absent means
the default, an integer is accepted, anything else fails. -/
def fieldIntD (fields : List (String × JVal)) (k : String) (d : Int) :
    Option Int :=
  match JVal.getKey fields k with
  | none => some d
  | some (.jInt n) => some n
  | some _ => none

/-- Validation `Card.model_validate`: a closed (`extra="forbid"`) object with a
required `config` dict and a required (whitespace-stripped) `label` string. -/
def validateCard : JVal → Option Card
  | .jObj fields =>
      if fields.all (fun kv => kv.1 == "config" || kv.1 == "label") then
        match JVal.getKey fields "config", JVal.getKey fields "label" with
        | some (.jObj cfg), some (.jStr lbl) => some ⟨cfg, lbl.trim⟩
        | _, _ => none
      else none
  | _ => none

/-- Validation `Game.model_validate`: a closed object whose fields are all optional
with the defaults declared in `models.py`. -/
def validateGame : JVal → Option Game
  | .jObj fields =>
      if fields.all (fun kv =>
          kv.1 == "blind_on_deck" || kv.1 == "hands_played" ||
          kv.1 == "current_round" || kv.1 == "skips" ||
          kv.1 == "discount_percent" || kv.1 == "interest_cap" ||
          kv.1 == "chips" || kv.1 == "inflation" || kv.1 == "round" ||
          kv.1 == "dollars" || kv.1 == "max_jokers" ||
          kv.1 == "bankrupt_at") then do
        let bod ← match JVal.getKey fields "blind_on_deck" with
          | none => some none
          | some .jNull => some none
          | some (.jStr s) => some (some s.trim)
          | some _ => none
        let cr ← match JVal.getKey fields "current_round" with
          | none => some []
          | some (.jObj fs) => some fs
          | some _ => none
        let hp ← fieldIntD fields "hands_played" 0
        let sk ← fieldIntD fields "skips" 0
        let dp ← fieldIntD fields "discount_percent" 0
        let ic ← fieldIntD fields "interest_cap" 0
        let ch ← fieldIntD fields "chips" 0
        let infl ← fieldIntD fields "inflation" 0
        let rd ← fieldIntD fields "round" 0
        let dl ← fieldIntD fields "dollars" 0
        let mj ← fieldIntD fields "max_jokers" 0
        let ba ← fieldIntD fields "bankrupt_at" 0
        some ⟨bod, hp, cr, sk, dp, ic, ch, infl, rd, dl, mj, ba⟩
      else none
  | _ => none

/-- Validation `GameState.model_validate`: a closed object with a required integer
`state` — a plain `int` field, carrying no enumeration constraint — and
optional `game`, `hand`, `jokers`. -/
def validateGameState : JVal → Option GameState
  | .jObj fields =>
      if fields.all (fun kv =>
          kv.1 == "state" || kv.1 == "game" || kv.1 == "hand" ||
          kv.1 == "jokers") then do
        let st ← match JVal.getKey fields "state" with
          | some (.jInt n) => some n
          | _ => none
        let gm ← match JVal.getKey fields "game" with
          | none => some none
          | some .jNull => some none
          | some v => (validateGame v).map some
        let hd ← match JVal.getKey fields "hand" with
          | none => some []
          | some (.jArr xs) => xs.mapM validateCard
          | some _ => none
        let jk ← match JVal.getKey fields "jokers" with
          | none => some []
          | some (.jArr xs) =>
              xs.mapM (fun x => match x with
                | .jObj fs => some fs
                | _ => none)
          | some _ => none
        some ⟨st, gm, hd, jk⟩
      else none
  | _ => none

end Balatrobot

namespace Balatrobot

/-- A concrete strategy used in witnesses and counterexamples: every
callback answers `PASS` with no arguments. -/
def passBot : BotCallbacks :=
  { skip_or_select_blind := fun _ => ⟨.PASS, none⟩
    select_cards_from_hand := fun _ => ⟨.PASS, none⟩
    select_shop_action := fun _ => ⟨.PASS, none⟩
    select_booster_action := fun _ => ⟨.PASS, none⟩
    sell_jokers := fun _ => ⟨.PASS, none⟩
    rearrange_jokers := fun _ => ⟨.PASS, none⟩
    use_or_sell_consumables := fun _ => ⟨.PASS, none⟩
    rearrange_consumables := fun _ => ⟨.PASS, none⟩
    rearrange_hand := fun _ => ⟨.PASS, none⟩ }

/-- A concrete run configuration used in witnesses and counterexamples. -/
def redDeckCfg : BotConfig :=
  { deck := "Red Deck", stake := 1, seed := "EXAMPLE", challenge := none }

/-- Context of the raised exception of a call result (empty if none). -/
def CallResult.ctxOfRaised (r : CallResult) : List (String × PyVal) :=
  match r.raisedExc with
  | some e => e.ctxList
  | none => []

/-- The inverse direction of the save-path translation on the `C:/` form:
strip the Proton `drive_c` prefix and reattach `C:/`. -/
def recoverWindowsPath (home linuxPath : String) : String :=
  "C:/" ++ pyDrop linuxPath (protonDriveC home ++ "/").length

end Balatrobot

/-! ## Theorems -/

namespace Balatrobot

/-- Helper: `disconnect` always lands in the fully disconnected state. -/
theorem disconnect_fields (st : ClientState) :
    (disconnect st).sock = none ∧ (disconnect st).connected = false := by
  cases h : st.sock <;> simp [disconnect, h]

/-- Helper: `disconnect` restores the two-state invariant from any state. -/
theorem twoStateInv_disconnect (st : ClientState) :
    twoStateInv (disconnect st) = true := by
  obtain ⟨h1, h2⟩ := disconnect_fields st
  simp [twoStateInv, h1, h2]

/-- C1 (counterexample): from a fresh client, a `connect()` whose TCP
connect raises does raise `ConnectionFailedError`, yet leaves the socket
handle non-null (the freshly created socket) with the connected flag false —
a state that is neither fully connected nor fully disconnected, refuting the
claim that after a failed `connect()` the socket handle is null. -/
theorem C1_connection_two_state_counterexample :
    (connect (clientInit 12346)
        (.setupOrConnectRaises "connection refused")).2.map
        BalatroExc.isConnectionFailed = some true ∧
    (connect (clientInit 12346)
        (.setupOrConnectRaises "connection refused")).1.sock = some 0 ∧
    (connect (clientInit 12346)
        (.setupOrConnectRaises "connection refused")).1.connected = false ∧
    twoStateInv (connect (clientInit 12346)
        (.setupOrConnectRaises "connection refused")).1 = false :=
  ⟨rfl, rfl, rfl, rfl⟩

/-- C1 (amended): starting from a state satisfying the two-state invariant,
a `connect()` that returns normally preserves the invariant; a `connect()`
that raises always raises `ConnectionFailedError` and leaves the connected
flag false, but may leave a stale non-null socket handle — the invariant is
restored by the next `disconnect()`. -/
theorem C1_connection_two_state_amended (st : ClientState)
    (o : ConnectOutcome) (hinv : twoStateInv st = true) :
    ((connect st o).2 = none → twoStateInv (connect st o).1 = true) ∧
    ((connect st o).2.isSome = true →
      (connect st o).1.connected = false ∧
      twoStateInv (disconnect (connect st o).1) = true ∧
      (connect st o).2.map BalatroExc.isConnectionFailed = some true) := by
  by_cases hc : st.connected
  · constructor
    · intro _
      simpa [connect, hc] using hinv
    · intro habs
      simp [connect, hc] at habs
  · cases o with
    | createRaises e =>
        refine ⟨fun h => by simp [connect, hc] at h, fun _ => ?_⟩
        refine ⟨by simp [connect, hc], ?_, ?_⟩
        · exact twoStateInv_disconnect _
        · simp [connect, hc, BalatroExc.isConnectionFailed]
    | setupOrConnectRaises e =>
        refine ⟨fun h => by simp [connect, hc] at h, fun _ => ?_⟩
        refine ⟨by simp [connect, hc], ?_, ?_⟩
        · exact twoStateInv_disconnect _
        · simp [connect, hc, BalatroExc.isConnectionFailed]
    | succeeds =>
        refine ⟨fun _ => ?_, fun habs => by simp [connect, hc] at habs⟩
        simp [connect, hc, twoStateInv]

/-- C1 (witness): the amended statement evaluated on a fresh client whose
TCP connect is refused. -/
theorem C1_connection_two_state_witness :
    (connect (clientInit 12346) (.setupOrConnectRaises "refused")).1.connected
        = false ∧
    twoStateInv (disconnect
      (connect (clientInit 12346) (.setupOrConnectRaises "refused")).1)
        = true ∧
    (connect (clientInit 12346) (.setupOrConnectRaises "refused")).2.map
        BalatroExc.isConnectionFailed = some true :=
  (C1_connection_two_state_amended (clientInit 12346)
    (.setupOrConnectRaises "refused") rfl).2 rfl

/-- C2 (code bug): an environment freshly parsed from JSON reports the
game-over phase as the integer `4` (= `State.GAME_OVER.value`), but
`env["state"] == State.GAME_OVER` compares an `int` against a plain
`enum.Enum` member, which is always false in Python, so `chooseaction`
leaves the running flag `true` — the dispatcher never marks the loop
finished on game over, contradicting the claim (and the code's evident
intent). -/
theorem C2_game_over_flag_code_bug :
    State.GAME_OVER.val = 4 ∧
    pyEq (.pyInt 4) (.pyState .GAME_OVER) = false ∧
    (chooseaction passBot redDeckCfg "SEED123" true
        ⟨.pyInt 4, "sell_jokers"⟩).1 = true :=
  ⟨rfl, rfl, rfl⟩

/-- C4 (counterexample): the integer `999` is outside the `State`
enumeration, yet `GameState` validation accepts `state = 999` (the field is
a plain `int`) and the dispatcher processes the environment without
raising — the unrecognized code is passed through, refuting the claim that
it is rejected. -/
theorem C4_unknown_state_counterexample :
    State.ofInt 999 = none ∧
    validateGameState (.jObj [("state", .jInt 999)])
        = some ⟨999, none, [], []⟩ ∧
    (chooseaction passBot redDeckCfg "SEED123" true
        ⟨.pyInt 999, "sell_jokers"⟩).2 = .ok ⟨.PASS, none⟩ :=
  ⟨rfl, rfl, rfl⟩

/-- C4 (amended): `GameState` validation accepts every integer state code —
known or not — and the dispatcher catches the `ValueError` of the
`State(...)` lookup (using it only for the log line) and dispatches on
`waitingFor` as usual; only the `state_enum` property rejects a code outside
the enumeration. -/
theorem C4_unknown_state_amended (n : Int) (cbs : BotCallbacks)
    (cfg : BotConfig) (freshSeed : String) (running : Bool) :
    validateGameState (.jObj [("state", .jInt n)])
        = some ⟨n, none, [], []⟩ ∧
    (chooseaction cbs cfg freshSeed running ⟨.pyInt n, "sell_jokers"⟩).2
        = .ok (cbs.sell_jokers ⟨.pyInt n, "sell_jokers"⟩) ∧
    GameState.state_enum ⟨n, none, [], []⟩ = State.ofInt n :=
  ⟨rfl, rfl, rfl⟩

/-- C6: any `send_message` call on a client whose connected flag is false
raises `ConnectionFailedError` (E008) whose context records
`connected = False`, independently of anything the transport might do —
the null socket handle is never touched. -/
theorem C6_not_connected_guard (st : ClientState) (name : String)
    (arguments : List (String × JVal)) (w : WireOutcome)
    (h : st.connected = false) :
    send_message st name arguments w
      = .raised (.connectionFailedError "Not connected to the game API"
          .CONNECTION_FAILED
          [("connected", .pyBool false),
           ("socket", .pyBool st.sock.isSome)]) ∧
    ("connected", PyVal.pyBool false)
      ∈ (send_message st name arguments w).ctxOfRaised ∧
    (∀ w2 : WireOutcome,
      send_message st name arguments w2 = send_message st name arguments w)
    := by
  refine ⟨by simp [send_message, h], ?_, ?_⟩
  · simp [send_message, h, CallResult.ctxOfRaised, CallResult.raisedExc,
      BalatroExc.ctxList]
  · intro w2
    simp [send_message, h]

/-- C6 (witness): the guard evaluated on a freshly constructed client. -/
theorem C6_not_connected_guard_witness :
    send_message (clientInit 12346) "get_game_state" []
        (.reply (.jObj [("state", .jInt 11)]))
      = .raised (.connectionFailedError "Not connected to the game API"
          .CONNECTION_FAILED
          [("connected", .pyBool false), ("socket", .pyBool false)]) :=
  (C6_not_connected_guard (clientInit 12346) "get_game_state" []
    (.reply (.jObj [("state", .jInt 11)])) rfl).1

/-- C8: `connect()` is idempotent — on an already-connected client it
returns immediately: the state (socket handle, connected flag, and the count
of sockets ever opened) is unchanged and no exception is raised. -/
theorem C8_connect_idempotent (st : ClientState) (o : ConnectOutcome)
    (h : st.connected = true) :
    connect st o = (st, none) := by
  simp [connect, h]

/-- C8 (witness): a second `connect()` right after a successful one is a
no-op. -/
theorem C8_connect_idempotent_witness :
    connect (connect (clientInit 12346) .succeeds).1 .succeeds
      = ((connect (clientInit 12346) .succeeds).1, none) :=
  C8_connect_idempotent (connect (clientInit 12346) .succeeds).1 .succeeds rfl

/-- C9: encoding an `ActionSchema` with `args = []` produces exactly the
wire string of the same verb with `args = None` (Python `if args:` is false
for both): the bare verb name, containing no `'|'` separator. -/
theorem C9_empty_args_encoding (a : Actions) :
    action_to_action_str ⟨a, some []⟩ = action_to_action_str ⟨a, none⟩ ∧
    action_to_action_str ⟨a, none⟩ = a.pyName ∧
    '|' ∉ (action_to_action_str ⟨a, none⟩).data := by
  cases a <;> exact ⟨rfl, rfl, by decide⟩

/-- C5 (counterexample): on a connected client, reply bytes that are not
valid UTF-8 — and therefore not valid JSON — make `data.decode()` at
`client.py:134` raise `UnicodeDecodeError`, which neither
`except socket.error` nor `except json.JSONDecodeError` catches: the call
propagates an uncaught non-Balatro error, raising no exception of the
`BalatroError` family at all — in particular no protocol-tier E001 error —
refuting the claim for every call whose reply bytes are not valid JSON. -/
theorem C5_error_tiers_counterexample :
    send_message (connect (clientInit 12346) .succeeds).1 "get_game_state" []
        (.replyUndecodable "invalid start byte")
      = .pyUnicodeDecodeError "invalid start byte" ∧
    (send_message (connect (clientInit 12346) .succeeds).1 "get_game_state"
        [] (.replyUndecodable "invalid start byte")).raisedExc = none :=
  ⟨rfl, rfl⟩

/-- C5 (amended): on a connected client, a reply whose bytes decode as
UTF-8 text that fails JSON parsing raises the protocol-tier `BalatroError`
with code E001 — an instance of the base class only, never of
`ConnectionFailedError` — while reply bytes that are not valid UTF-8 escape
as an uncaught `UnicodeDecodeError` instead of a `BalatroError`-family
exception; a `socket.error` during send or receive raises
`ConnectionFailedError` with code E008, the original error string preserved
in its context. -/
theorem C5_error_tiers_amended (st : ClientState) (name : String)
    (arguments : List (String × JVal)) (ejson esock euni : String)
    (hc : st.connected = true) (hs : st.sock.isSome = true) :
    send_message st name arguments (.replyNotJson ejson)
      = .raised (.balatroError ("Invalid JSON response from game: " ++ ejson)
          .INVALID_JSON [("error", .pyStr ejson)]) ∧
    (send_message st name arguments (.replyNotJson ejson)).raisedExc.map
        BalatroExc.isConnectionFailed = some false ∧
    (send_message st name arguments (.replyNotJson ejson)).raisedExc.map
        BalatroExc.codeVal = some "E001" ∧
    send_message st name arguments (.replyUndecodable euni)
      = .pyUnicodeDecodeError euni ∧
    (send_message st name arguments (.replyUndecodable euni)).raisedExc
      = none ∧
    send_message st name arguments (.sendRecvRaises esock)
      = .raised (.connectionFailedError
          ("Socket error during communication: " ++ esock)
          .CONNECTION_FAILED [("error", .pyStr esock)]) ∧
    (send_message st name arguments (.sendRecvRaises esock)).raisedExc.map
        BalatroExc.isConnectionFailed = some true ∧
    (send_message st name arguments (.sendRecvRaises esock)).raisedExc.map
        BalatroExc.codeVal = some "E008" := by
  obtain ⟨v, hv⟩ := Option.isSome_iff_exists.mp hs
  refine ⟨?_, ?_, ?_, ?_, ?_, ?_, ?_, ?_⟩ <;>
    simp [send_message, hc, hv, CallResult.raisedExc,
      BalatroExc.isConnectionFailed, BalatroExc.codeVal, ErrorCode.val]

/-- C5 (witness): all three receive-side outcomes evaluated on a freshly
connected client. -/
theorem C5_error_tiers_witness :
    send_message (connect (clientInit 12346) .succeeds).1 "get_game_state" []
        (.replyNotJson "Expecting value")
      = .raised (.balatroError
          ("Invalid JSON response from game: " ++ "Expecting value")
          .INVALID_JSON [("error", .pyStr "Expecting value")]) ∧
    send_message (connect (clientInit 12346) .succeeds).1 "get_game_state" []
        (.replyUndecodable "invalid continuation byte")
      = .pyUnicodeDecodeError "invalid continuation byte" ∧
    send_message (connect (clientInit 12346) .succeeds).1 "get_game_state" []
        (.sendRecvRaises "broken pipe")
      = .raised (.connectionFailedError
          ("Socket error during communication: " ++ "broken pipe")
          .CONNECTION_FAILED [("error", .pyStr "broken pipe")]) :=
  ⟨(C5_error_tiers_amended (connect (clientInit 12346) .succeeds).1
      "get_game_state" [] "Expecting value" "broken pipe"
      "invalid continuation byte" rfl rfl).1,
   (C5_error_tiers_amended (connect (clientInit 12346) .succeeds).1
      "get_game_state" [] "Expecting value" "broken pipe"
      "invalid continuation byte" rfl rfl).2.2.2.1,
   (C5_error_tiers_amended (connect (clientInit 12346) .succeeds).1
      "get_game_state" [] "Expecting value" "broken pipe"
      "invalid continuation byte" rfl rfl).2.2.2.2.2.1⟩

/-- The slash prefix form: `C:/<rest>` maps to the Proton root plus
`/<rest>`. -/
theorem convert_slash_form (home r : String) :
    convert_windows_path_to_linux true home ("C:/" ++ r)
      = protonDriveC home ++ "/" ++ r := by
  have hpre : pyStartsWith ("C:/" ++ r) "C:" = true := by
    simp only [pyStartsWith, List.isPrefixOf_iff_prefix]
    exact ⟨'/' :: r.data, rfl⟩
  have hpre3 : pyStartsWith ("C:/" ++ r) "C:/" = true := by
    simp only [pyStartsWith, List.isPrefixOf_iff_prefix]
    exact ⟨r.data, rfl⟩
  have hdrop : pyDrop ("C:/" ++ r) 3 = r := by
    simp only [pyDrop]
    calc String.mk ((("C:/" ++ r) : String).data.drop 3)
        = String.mk (List.drop (['C', ':', '/'] : List Char).length
            (['C', ':', '/'] ++ r.data)) := rfl
      _ = String.mk r.data := by rw [List.drop_left]
      _ = r := rfl
  simp [convert_windows_path_to_linux, hpre, hpre3, hdrop]

/-- The backslash prefix form: `C:\<rest>` maps to the Proton root plus
`/<rest>` with backslashes normalised to slashes. -/
theorem convert_backslash_form (home r : String) :
    convert_windows_path_to_linux true home ("C:\\" ++ r)
      = protonDriveC home ++ "/" ++ backslashToSlash r := by
  have hpre : pyStartsWith ("C:\\" ++ r) "C:" = true := by
    simp only [pyStartsWith, List.isPrefixOf_iff_prefix]
    exact ⟨'\\' :: r.data, rfl⟩
  have hpre3 : pyStartsWith ("C:\\" ++ r) "C:/" = false := by
    show (['C', ':', '/'] : List Char).isPrefixOf
      (['C', ':', '\\'] ++ r.data) = false
    simp [List.isPrefixOf]
  have hpre4 : pyStartsWith ("C:\\" ++ r) "C:\\" = true := by
    simp only [pyStartsWith, List.isPrefixOf_iff_prefix]
    exact ⟨r.data, rfl⟩
  have hdrop : pyDrop ("C:\\" ++ r) 3 = r := by
    simp only [pyDrop]
    calc String.mk ((("C:\\" ++ r) : String).data.drop 3)
        = String.mk (List.drop (['C', ':', '\\'] : List Char).length
            (['C', ':', '\\'] ++ r.data)) := rfl
      _ = String.mk r.data := by rw [List.drop_left]
      _ = r := rfl
  simp [convert_windows_path_to_linux, hpre, hpre3, hpre4, hdrop]

/-- The bare prefix form: `C:<rest>` (with `<rest>` not starting in a slash
or backslash) maps to the Proton root plus `/<rest>`, colliding with the
image of `C:/<rest>`. -/
theorem convert_bare_form (home r : String)
    (h1 : r.data.head? ≠ some '/') (h2 : r.data.head? ≠ some '\\') :
    convert_windows_path_to_linux true home ("C:" ++ r)
      = protonDriveC home ++ "/" ++ r := by
  have hpre : pyStartsWith ("C:" ++ r) "C:" = true := by
    simp only [pyStartsWith, List.isPrefixOf_iff_prefix]
    exact ⟨r.data, rfl⟩
  have hpre3 : pyStartsWith ("C:" ++ r) "C:/" = false := by
    show (['C', ':', '/'] : List Char).isPrefixOf (['C', ':'] ++ r.data)
      = false
    cases hr : r.data with
    | nil => simp [List.isPrefixOf]
    | cons c cs =>
        have : c ≠ '/' := by
          intro hc
          exact h1 (by rw [hr, hc]; rfl)
        simp [List.isPrefixOf, Ne.symm this]
  have hpre4 : pyStartsWith ("C:" ++ r) "C:\\" = false := by
    show (['C', ':', '\\'] : List Char).isPrefixOf (['C', ':'] ++ r.data)
      = false
    cases hr : r.data with
    | nil => simp [List.isPrefixOf]
    | cons c cs =>
        have : c ≠ '\\' := by
          intro hc
          exact h2 (by rw [hr, hc]; rfl)
        simp [List.isPrefixOf, Ne.symm this]
  have hdrop : pyDrop ("C:" ++ r) 2 = r := by
    simp only [pyDrop]
    calc String.mk ((("C:" ++ r) : String).data.drop 2)
        = String.mk (List.drop (['C', ':'] : List Char).length
            (['C', ':'] ++ r.data)) := rfl
      _ = String.mk r.data := by rw [List.drop_left]
      _ = r := rfl
  simp [convert_windows_path_to_linux, hpre, hpre3, hpre4, hdrop]

/-- C3 (counterexample): on Linux, the three distinct prefix forms of the
same path collapse to one output, so the transform is not invertible on the
common prefix forms as claimed: the original cannot be recovered from
`/home/user/.../drive_c/save.jkr` alone. -/
theorem C3_path_translation_counterexample :
    ("C:/save.jkr" : String) ≠ "C:save.jkr" ∧
    ("C:/save.jkr" : String) ≠ "C:\\save.jkr" ∧
    convert_windows_path_to_linux true "/home/user" "C:/save.jkr"
      = convert_windows_path_to_linux true "/home/user" "C:save.jkr" ∧
    convert_windows_path_to_linux true "/home/user" "C:/save.jkr"
      = convert_windows_path_to_linux true "/home/user" "C:\\save.jkr" :=
  ⟨by decide, by decide, rfl, rfl⟩

/-- C3 (amended): the translation is a pure, deterministic string transform
(a function of the input string, the platform, and the home directory, with
no filesystem effects), but it is not invertible across the three prefix
forms: `C:/<rest>`, `C:<rest>` and `C:\<rest>` (backslashes normalised) all
map to the same output.  Restricted to the `C:/` form it is invertible: the
original path is recovered by stripping the Proton prefix and reattaching
`C:/`. -/
theorem C3_path_translation_amended (home r : String)
    (h1 : r.data.head? ≠ some '/') (h2 : r.data.head? ≠ some '\\') :
    convert_windows_path_to_linux true home ("C:/" ++ r)
      = protonDriveC home ++ "/" ++ r ∧
    convert_windows_path_to_linux true home ("C:" ++ r)
      = protonDriveC home ++ "/" ++ r ∧
    convert_windows_path_to_linux true home ("C:\\" ++ r)
      = protonDriveC home ++ "/" ++ backslashToSlash r ∧
    recoverWindowsPath home
        (convert_windows_path_to_linux true home ("C:/" ++ r))
      = "C:/" ++ r := by
  refine ⟨convert_slash_form home r, convert_bare_form home r h1 h2,
    convert_backslash_form home r, ?_⟩
  rw [convert_slash_form home r]
  simp only [recoverWindowsPath, pyDrop]
  congr 1
  calc String.mk ((protonDriveC home ++ "/" ++ r).data.drop
          (protonDriveC home ++ "/").length)
      = String.mk (List.drop (protonDriveC home ++ "/").data.length
          ((protonDriveC home ++ "/").data ++ r.data)) := rfl
    _ = String.mk r.data := by rw [List.drop_left]
    _ = r := rfl

/-- C3 (witness): the amended statement evaluated at `save.jkr`. -/
theorem C3_path_translation_witness :
    convert_windows_path_to_linux true "/home/user" ("C:/" ++ "save.jkr")
      = protonDriveC "/home/user" ++ "/" ++ "save.jkr" ∧
    convert_windows_path_to_linux true "/home/user" ("C:" ++ "save.jkr")
      = protonDriveC "/home/user" ++ "/" ++ "save.jkr" ∧
    convert_windows_path_to_linux true "/home/user" ("C:\\" ++ "save.jkr")
      = protonDriveC "/home/user" ++ "/" ++ backslashToSlash "save.jkr" ∧
    recoverWindowsPath "/home/user"
        (convert_windows_path_to_linux true "/home/user" ("C:/" ++ "save.jkr"))
      = "C:/" ++ "save.jkr" :=
  C3_path_translation_amended "/home/user" "save.jkr" (by decide) (by decide)

/-- Unfolding lemma: `(String.mk l).data = l`. -/
theorem data_mk (l : List Char) : (String.mk l).data = l := rfl

/-- Eta lemma: `String.mk s.data = s`. -/
theorem mk_data (s : String) : String.mk s.data = s := rfl

/-- A character different from the separator that occurs in no chunk does
not occur in the chunks joined by the separator. -/
theorem not_mem_intercalate {c d : Char} (hcd : c ≠ d) :
    ∀ ls : List (List Char), (∀ l ∈ ls, c ∉ l) →
      c ∉ List.intercalate [d] ls := by
  intro ls
  induction ls with
  | nil => intro _; simp [List.intercalate]
  | cons x t ih =>
      intro h
      cases t with
      | nil => simpa [List.intercalate] using h x (by simp)
      | cons y t2 =>
          rw [show List.intercalate [d] (x :: y :: t2)
              = x ++ d :: List.intercalate [d] (y :: t2) from by
            simp [List.intercalate]]
          intro hmem
          rcases List.mem_append.mp hmem with h1 | h2
          · exact h x (by simp) h1
          · rcases List.mem_cons.mp h2 with he | hi
            · exact hcd he
            · exact ih (fun l hl => h l (List.mem_cons_of_mem _ hl)) hi

/-- No `Actions` verb name contains a `'|'` or a `','`. -/
theorem pyName_no_sep (a : Actions) :
    '|' ∉ a.pyName.data ∧ ',' ∉ a.pyName.data := by
  cases a <;> exact ⟨by decide, by decide⟩

/-- C7 (counterexample): with the argument `"1,2"`, whose rendering contains
the element separator, the encoded string `PLAY_HAND|1,2,3,4` decodes to
four argument elements, not the original three — the round trip fails for
args lists whose element renderings contain `','`, refuting the claim for
arbitrary args. -/
theorem C7_roundtrip_counterexample :
    action_to_action_str
        ⟨.PLAY_HAND, some [.pyStr "1,2", .pyStr "3", .pyStr "4"]⟩
      = "PLAY_HAND|1,2,3,4" ∧
    decode_action_str "PLAY_HAND|1,2,3,4"
      = ("PLAY_HAND", ["1", "2", "3", "4"]) ∧
    (decode_action_str (action_to_action_str
        ⟨.PLAY_HAND, some [.pyStr "1,2", .pyStr "3", .pyStr "4"]⟩)).2
      ≠ ["1,2", "3", "4"] :=
  ⟨rfl, rfl, by decide⟩

/-- C7 (amended): for every action verb and every non-empty args list whose
elements' string renderings contain neither `','` nor `'|'`, encoding to the
pipe/comma wire form and decoding (split on `'|'`, second field split on
`','`) recovers the verb name as the first field and exactly the rendered
args list. -/
theorem C7_roundtrip_amended (a : Actions) (args : List String)
    (hne : args ≠ [])
    (hsep : ∀ x ∈ args, ',' ∉ x.data ∧ '|' ∉ x.data) :
    decode_action_str
        (action_to_action_str ⟨a, some (args.map PyVal.pyStr)⟩)
      = (a.pyName, args) := by
  have hargs2 : (args.map PyVal.pyStr).map pyStrOf = args := by
    rw [List.map_map]
    exact List.map_id'' (fun s => rfl) args
  have htruthy : pyTruthyOptList (some (args.map PyVal.pyStr)) = true := by
    simp [pyTruthyOptList, List.isEmpty_iff, hne]
  have hj : '|' ∉ List.intercalate [','] (args.map String.data) := by
    refine not_mem_intercalate (by decide) _ ?_
    intro l hl
    obtain ⟨x, hx, rfl⟩ := List.mem_map.mp hl
    exact (hsep x hx).2
  have hsplit1 :
      (List.intercalate ['|']
        [a.pyName.data,
         List.intercalate [','] (args.map String.data)]).splitOn '|'
      = [a.pyName.data, List.intercalate [','] (args.map String.data)] := by
    refine List.splitOn_intercalate _ '|' ?_ (by simp)
    intro l hl
    rcases List.mem_cons.mp hl with rfl | hl2
    · exact (pyName_no_sep a).1
    · rcases List.mem_cons.mp hl2 with rfl | habs
      · exact hj
      · exact absurd habs (List.not_mem_nil _)
  have hsplit2 :
      (List.intercalate [','] (args.map String.data)).splitOn ','
        = args.map String.data := by
    refine List.splitOn_intercalate _ ',' ?_ (by simpa using hne)
    intro l hl
    obtain ⟨x, hx, rfl⟩ := List.mem_map.mp hl
    exact (hsep x hx).1
  have henc : action_to_action_str ⟨a, some (args.map PyVal.pyStr)⟩
      = String.mk (List.intercalate ['|']
          [a.pyName.data,
           List.intercalate [','] (args.map String.data)]) := by
    simp only [action_to_action_str, htruthy, if_pos, Option.getD,
      List.map_cons, List.map_nil, List.map_append, data_mk]
    rw [hargs2]
    rfl
  rw [henc]
  simp only [decode_action_str, data_mk, hsplit1, List.map_cons,
    List.map_nil, mk_data, List.headD_cons, List.drop_succ_cons,
    List.drop_zero, hsplit2]
  rw [List.map_map]
  rw [show List.map (String.mk ∘ String.data) args = args from
    @List.map_id'' String (String.mk ∘ String.data) (fun s => rfl) args]

/-- C7 (witness): the amended round trip evaluated at `PLAY_HAND` with args
`1, 2, 3`. -/
theorem C7_roundtrip_witness :
    decode_action_str (action_to_action_str
        ⟨.PLAY_HAND, some (["1", "2", "3"].map PyVal.pyStr)⟩)
      = ("PLAY_HAND", ["1", "2", "3"]) :=
  C7_roundtrip_amended .PLAY_HAND ["1", "2", "3"] (by decide) (by decide)

/-- C10: `disconnect()` (whose body contains no `raise`, modelled as a total
function) lands in the fully disconnected state — socket handle null and
connected flag false — from every prior client state: never connected,
connected, or holding a stale socket left by a failed `connect()`. -/
theorem C10_disconnect_postcondition (st : ClientState) :
    (disconnect st).sock = none ∧ (disconnect st).connected = false :=
  disconnect_fields st

end Balatrobot
